import Mathlib

/-!
Shallow embedding of the authentication / repository core of the
API-SYSTEM-BACKEND point-of-sale service, together with proofs that check
the natural-language specification against the code.

Conventions of the embedding:
* Time is a `Nat` number of seconds (a single process clock; the Python
  code mixes `datetime.utcnow()` and `datetime.now()`, which coincide when
  the process runs in UTC).
* A JWT is modelled symbolically: `jwt.encode(payload, key, alg)` is the
  record of the payload together with the signing key and algorithm, and
  `jwt.decode` succeeds exactly when the keys and algorithms match and the
  embedded expiry has not passed (signature forging is not modelled).
* MongoDB collections are association lists; `update_one` updates the
  first matching document (`_id` carries a unique index, so at most one
  document ever matches).
* bcrypt hashing is modelled by an injective tagging function; only
  `verify_password`'s boolean outcome matters to the spec.
-/

deriving instance DecidableEq for Except

namespace ApiSpec

/-- Generic helper: update the first element of a list satisfying `p`
(the semantics of MongoDB `update_one` on a uniquely-indexed filter). -/
def updateFirst (p : α → Bool) (f : α → α) : List α → List α
  | [] => []
  | x :: xs => if p x then f x :: xs else x :: updateFirst p f xs

/-- Process configuration, `src/core/config.py` class `Settings`. -/
structure Settings where
  SECRET_KEY : String
  ALGORITHM : String
  ACCESS_TOKEN_EXPIRE_MINUTES : Nat
  REFRESH_TOKEN_EXPIRE_DAYS : Nat
deriving DecidableEq, Repr

/-- The environment defaults of `src/core/config.py`. -/
def defaultSettings : Settings :=
  { SECRET_KEY := "your-secret-key-here"
    ALGORITHM := "HS256"
    ACCESS_TOKEN_EXPIRE_MINUTES := 30
    REFRESH_TOKEN_EXPIRE_DAYS := 7 }

/-- A JWT claim set as produced by both token factories in the code:
`{"sub": ..., "exp": ..., "type": ...}`. -/
structure TokenPayload where
  sub : String
  exp : Nat
  type : String
deriving DecidableEq, BEq, Repr

/-- A signed token: the claim set plus the signing key and algorithm
(which together stand for the HMAC signature). -/
structure Jwt where
  payload : TokenPayload
  key : String
  alg : String
deriving DecidableEq, BEq, Repr

/-- bcrypt hash of `src/core/security.py` `get_password_hash`, modelled as
an injective tag. -/
def get_password_hash (password : String) : String :=
  "bcrypt$" ++ password

/-- `src/core/security.py` `verify_password`. -/
def verify_password (plain hashed : String) : Bool :=
  hashed == get_password_hash plain

namespace Security

/-- `src/core/security.py` `create_access_token`: expiry is
`now + (expires_delta or ACCESS_TOKEN_EXPIRE_MINUTES minutes)`, claim
`type = "access"`, signed with `settings.SECRET_KEY`. -/
def create_access_token (s : Settings) (subject : String)
    (expires_delta : Option Nat) (now : Nat) : Jwt :=
  let expire := now + expires_delta.getD (s.ACCESS_TOKEN_EXPIRE_MINUTES * 60)
  { payload := { sub := subject, exp := expire, type := "access" }
    key := s.SECRET_KEY, alg := s.ALGORITHM }

/-- `src/core/security.py` `create_refresh_token`: expiry is
`now + REFRESH_TOKEN_EXPIRE_DAYS days`, claim `type = "refresh"`. -/
def create_refresh_token (s : Settings) (subject : String) (now : Nat) : Jwt :=
  { payload := { sub := subject, exp := now + s.REFRESH_TOKEN_EXPIRE_DAYS * 86400
                 type := "refresh" }
    key := s.SECRET_KEY, alg := s.ALGORITHM }

/-- `src/core/security.py` `verify_token`: `jose.jwt.decode` with
`settings.SECRET_KEY` and `algorithms=[settings.ALGORITHM]`; returns the
whole payload, or `none` on any `JWTError` (bad signature, wrong
algorithm, expired). -/
def verify_token (s : Settings) (token : Jwt) (now : Nat) : Option TokenPayload :=
  if token.key = s.SECRET_KEY ∧ token.alg = s.ALGORITHM ∧ now < token.payload.exp then
    some token.payload
  else
    none

end Security

namespace TokenUtils

/-- `src/utils/token_utils.py` hardcoded signing key. -/
def SECRET_KEY : String := "tu_secreto_super_seguro"

/-- `src/utils/token_utils.py` hardcoded algorithm. -/
def ALGORITHM : String := "HS256"

/-- `src/utils/token_utils.py` hardcoded access-token TTL in minutes. -/
def ACCESS_TOKEN_EXPIRE_MINUTES : Nat := 15

/-- `src/utils/token_utils.py` hardcoded refresh-token TTL in days. -/
def REFRESH_TOKEN_EXPIRE_DAYS : Nat := 7

/-- `src/utils/token_utils.py` `create_access_token`. -/
def create_access_token (user_id : String) (now : Nat) : Jwt :=
  { payload := { sub := user_id, exp := now + ACCESS_TOKEN_EXPIRE_MINUTES * 60
                 type := "access" }
    key := SECRET_KEY, alg := ALGORITHM }

/-- `src/utils/token_utils.py` `create_refresh_token`. -/
def create_refresh_token (user_id : String) (now : Nat) : Jwt :=
  { payload := { sub := user_id, exp := now + REFRESH_TOKEN_EXPIRE_DAYS * 86400
                 type := "refresh" }
    key := SECRET_KEY, alg := ALGORITHM }

/-- `src/utils/token_utils.py` `decode_jwt`: PyJWT decode with the
hardcoded key and algorithm; `none` on any `PyJWTError`. -/
def decode_jwt (token : Jwt) (now : Nat) : Option TokenPayload :=
  if token.key = SECRET_KEY ∧ token.alg = ALGORITHM ∧ now < token.payload.exp then
    some token.payload
  else
    none

end TokenUtils

/-- The error taxonomy surfaced by the endpoints (`HTTPException`s). -/
inductive ApiError where
  | unauthorized (detail : String)
  | badRequest (detail : String)
  | locked (detail : String)
  | notFound (detail : String)
  | forbidden (detail : String)
  | internal (detail : String)
deriving DecidableEq, Repr

/-- `bson.ObjectId.is_valid` on a string: 24 hexadecimal characters. -/
def isValidObjectId (s : String) : Bool :=
  s.data.length == 24 &&
    s.data.all (fun c => c.isDigit || ('a' ≤ c && c ≤ 'f') || ('A' ≤ c && c ≤ 'F'))

/-- A document of the `users` collection. `Option` fields model MongoDB
documents that may lack the key entirely (`none`); the code reads them
with `dict.get` defaults. -/
structure UserDoc where
  id : String
  email : String
  username : String
  hashed_password : String
  role : String
  permissions : List String
  is_active : Option Bool
  is_verified : Option Bool
  failed_login_attempts : Option Nat
  is_locked : Option Bool
  last_login : Option Nat
  created_at : Nat
  updated_at : Nat
deriving DecidableEq, BEq, Repr

namespace UserRepo

/-- `UserRepository.get_by_email`: `find_one({"email": email, "is_active": True})`.
A document missing the `is_active` key does not match the equality query. -/
def get_by_email (db : List UserDoc) (email : String) : Option UserDoc :=
  db.find? (fun u => u.email == email && u.is_active == some true)

/-- `BaseRepository.get_by_id`: `None` for an invalid ObjectId string,
otherwise `find_one({"_id": ObjectId(id)})` — no `is_active` filter. -/
def get_by_id (db : List UserDoc) (uid : String) : Option UserDoc :=
  if isValidObjectId uid then db.find? (fun u => u.id == uid) else none

/-- `UserRepository.email_exists`: counts active documents with the email,
optionally excluding one id (`_id: {$ne: ObjectId(exclude_id)}`). -/
def email_exists (db : List UserDoc) (email : String) (exclude : Option String) : Bool :=
  db.any (fun u => u.email == email && u.is_active == some true &&
    (match exclude with
     | some e => !(u.id == e)
     | none => true))

/-- `UserRepository.username_exists`, same shape as `email_exists`. -/
def username_exists (db : List UserDoc) (username : String) (exclude : Option String) : Bool :=
  db.any (fun u => u.username == username && u.is_active == some true &&
    (match exclude with
     | some e => !(u.id == e)
     | none => true))

/-- `UserRepository.increment_failed_attempts`: a raw
`update_one({"_id": ...}, {"$inc": {"failed_login_attempts": 1}})`;
`$inc` on a missing field creates it with value 1, and no `updated_at`
stamp is applied. (Repository documents always carry valid ObjectIds;
only such states are modelled.) -/
def increment_failed_attempts (db : List UserDoc) (uid : String) : List UserDoc :=
  updateFirst (fun u => u.id == uid)
    (fun u => { u with failed_login_attempts := some (u.failed_login_attempts.getD 0 + 1) }) db

/-- `UserRepository.lock_user`, via `BaseRepository.update`: rejects an
invalid id, otherwise `$set {is_locked: true, updated_at: now}`. -/
def lock_user (db : List UserDoc) (uid : String) (now : Nat) : List UserDoc :=
  if isValidObjectId uid then
    updateFirst (fun u => u.id == uid) (fun u => { u with is_locked := some true, updated_at := now }) db
  else db

/-- `UserRepository.reset_failed_attempts`, via `BaseRepository.update`. -/
def reset_failed_attempts (db : List UserDoc) (uid : String) (now : Nat) : List UserDoc :=
  if isValidObjectId uid then
    updateFirst (fun u => u.id == uid)
      (fun u => { u with failed_login_attempts := some 0, updated_at := now }) db
  else db

/-- `UserRepository.update_last_login`, via `BaseRepository.update`. -/
def update_last_login (db : List UserDoc) (uid : String) (now : Nat) : List UserDoc :=
  if isValidObjectId uid then
    updateFirst (fun u => u.id == uid)
      (fun u => { u with last_login := some now, updated_at := now }) db
  else db

end UserRepo

/-- The successful `POST /auth/login` payload (`Token` model):
`UserService.authenticate`'s return value. -/
structure AuthOk where
  access_token : Jwt
  refresh_token : Jwt
  token_type : String
  expires_in : Nat
  user : UserDoc
deriving DecidableEq, Repr

/-- `UserLogin` request model. -/
structure UserLogin where
  email : String
  password : String
deriving DecidableEq, Repr

/-- `UserService.authenticate` (`src/services/user_service.py`), with the
state of the `users` collection passed explicitly. The returned `user`
snapshot is the document as fetched, with `hashed_password` stripped
(modelled by blanking the field). -/
def authenticate (s : Settings) (db : List UserDoc) (login : UserLogin) (now : Nat) :
    List UserDoc × Except ApiError AuthOk :=
  match UserRepo.get_by_email db login.email with
  | none => (db, .error (.unauthorized "Invalid credentials"))
  | some user =>
    if user.is_locked.getD false then
      (db, .error (.locked "Account is locked"))
    else if !(verify_password login.password user.hashed_password) then
      let db1 := UserRepo.increment_failed_attempts db user.id
      let db2 := if user.failed_login_attempts.getD 0 ≥ 4 then
                   UserRepo.lock_user db1 user.id now
                 else db1
      (db2, .error (.unauthorized "Invalid credentials"))
    else
      let db1 := UserRepo.reset_failed_attempts db user.id now
      let db2 := UserRepo.update_last_login db1 user.id now
      (db2, .ok
        { access_token := Security.create_access_token s user.id
            (some (s.ACCESS_TOKEN_EXPIRE_MINUTES * 60)) now
          refresh_token := Security.create_refresh_token s user.id now
          token_type := "bearer"
          expires_in := s.ACCESS_TOKEN_EXPIRE_MINUTES * 60
          user := { user with hashed_password := "" } })

/-- `src/api/deps.py` `get_current_user`: the guard every entity endpoint
depends on. It verifies the token with `core.security.verify_token` and
never consults the revocation blacklist. `payload.get("sub")` is falsy
for the empty string; a user document lacking `is_active` passes the
`user.get("is_active", True)` check. -/
def get_current_user (s : Settings) (db : List UserDoc) (token : Jwt) (now : Nat) :
    Except ApiError UserDoc :=
  match Security.verify_token s token now with
  | none => .error (.unauthorized "Invalid authentication credentials")
  | some payload =>
    if payload.sub == "" then .error (.unauthorized "Invalid token payload")
    else
      match UserRepo.get_by_id db payload.sub with
      | none => .error (.unauthorized "User not found")
      | some user =>
        if user.is_active.getD true = false then .error (.unauthorized "Inactive user")
        else .ok user

/-- `src/api/deps.py` `get_current_active_user`: re-checks
`is_active` (with the same `True` default) on top of `get_current_user`. -/
def get_current_active_user (s : Settings) (db : List UserDoc) (token : Jwt) (now : Nat) :
    Except ApiError UserDoc :=
  match get_current_user s db token now with
  | .error e => .error e
  | .ok user =>
    if user.is_active.getD true = false then .error (.badRequest "Inactive user")
    else .ok user

/-- The process-wide mutable state relevant to authentication: the
revocation blacklist (`src/services/token_blacklist.py` `revoked_tokens`)
and the `users` collection. -/
structure AppState where
  revoked_tokens : List Jwt
  users : List UserDoc
deriving Repr

/-- `add_token_to_blacklist`: set insertion. -/
def add_token_to_blacklist (st : AppState) (token : Jwt) : AppState :=
  { st with revoked_tokens :=
      if st.revoked_tokens.contains token then st.revoked_tokens
      else token :: st.revoked_tokens }

/-- `is_token_revoked`: set membership. -/
def is_token_revoked (st : AppState) (token : Jwt) : Bool :=
  st.revoked_tokens.contains token

/-- `POST /auth/logout`: unconditionally blacklists the presented bearer
token and reports success. -/
def logout (st : AppState) (token : Jwt) : AppState × String :=
  (add_token_to_blacklist st token, "Successfully logged out")

/-- `src/api/v1/endpoints/deps.py` `verify_token`: the only place in the
code that checks the blacklist; it then decodes with
`token_utils.decode_jwt` (hardcoded key). No route depends on it. -/
def verify_token_dep (st : AppState) (token : Jwt) (now : Nat) : Except ApiError TokenPayload :=
  if is_token_revoked st token then .error (.unauthorized "Token has been revoked")
  else
    match TokenUtils.decode_jwt token now with
    | none => .error (.unauthorized "Invalid token")
    | some p => .ok p

/-- The successful `POST /auth/refresh` payload. -/
structure RefreshOk where
  access_token : Jwt
  refresh_token : Jwt
  token_type : String
  expires_in : Nat
deriving DecidableEq, Repr

/-- `POST /auth/refresh` (`src/api/v1/endpoints/auth.py`): decodes with
`core.security.verify_token` (imported through `src.api.deps`), requires
claim `type = "refresh"`, then issues a fresh pair with the
`token_utils` factories (hardcoded key, 15-minute access TTL) while
reporting `expires_in = settings.ACCESS_TOKEN_EXPIRE_MINUTES * 60`.
The blacklist in `st` is never read. -/
def refresh_endpoint (s : Settings) (_st : AppState) (refreshtoken : Jwt) (now : Nat) :
    Except ApiError RefreshOk :=
  match Security.verify_token s refreshtoken now with
  | none => .error (.unauthorized "Invalid refresh token")
  | some payload =>
    if payload.type ≠ "refresh" then .error (.unauthorized "Invalid refresh token")
    else
      .ok { access_token := TokenUtils.create_access_token payload.sub now
            refresh_token := TokenUtils.create_refresh_token payload.sub now
            token_type := "bearer"
            expires_in := s.ACCESS_TOKEN_EXPIRE_MINUTES * 60 }

/-! ### Generic documents and `BaseRepository.update` (src/repositories/base.py) -/

/-- A BSON value (the fragment the spec needs). -/
inductive BVal where
  | s (v : String)
  | n (v : Nat)
  | b (v : Bool)
deriving DecidableEq, BEq, Repr

/-- A document body: fields in document order. MongoDB documents and
Python dicts have pairwise-distinct keys. -/
abbrev BDoc := List (String × BVal)

/-- A stored document: its `_id` plus the remaining fields. -/
structure StoredDoc where
  id : String
  fields : BDoc
deriving DecidableEq, BEq, Repr

/-- Field lookup in a document. -/
def lookupVal (k : String) (d : BDoc) : Option BVal :=
  (d.find? (fun kv => kv.1 == k)).map (fun kv => kv.2)

/-- The field names of a document / update map, in order. -/
def dKeys (d : BDoc) : List String :=
  d.map Prod.fst

/-- `$set` of one field (also Python dict assignment for the update map):
replace the value in place when the key is present, append otherwise. -/
def setVal (k : String) (v : BVal) : BDoc → BDoc
  | [] => [(k, v)]
  | kv :: rest => if kv.1 = k then (k, v) :: rest else kv :: setVal k v rest

/-- `$set` of a whole update map, field by field. -/
def applySet (doc : BDoc) (upd : BDoc) : BDoc :=
  upd.foldl (fun d kv => setVal kv.1 kv.2 d) doc

/-- `find_one({"_id": ...})` over a generic collection. -/
def findDoc (store : List StoredDoc) (docId : String) : Option StoredDoc :=
  store.find? (fun d => d.id == docId)

/-- `BaseRepository.update`: `False` for a syntactically invalid id;
otherwise stamps `updated_at = now` into the update map and applies
`update_one({"_id": id}, {"$set": update_data})`, returning
`modified_count > 0` — whether the matched document actually changed. -/
def baseUpdate (store : List StoredDoc) (document_id : String) (update_data : BDoc)
    (now : Nat) : List StoredDoc × Bool :=
  if isValidObjectId document_id then
    let stamped := setVal "updated_at" (.n now) update_data
    match findDoc store document_id with
    | none => (store, false)
    | some d =>
      let nf := applySet d.fields stamped
      (updateFirst (fun x => x.id == document_id) (fun x => { x with fields := nf }) store,
       decide (nf ≠ d.fields))
  else (store, false)

/-! ### `UserService.create` / `UserService.update` (src/services/user_service.py) -/

/-- `UserCreate` request model (the `profile` sub-object carries no
behaviour used by the spec and is omitted). -/
structure UserCreate where
  email : String
  username : String
  password : String
  role : String
  permissions : List String
deriving DecidableEq, Repr

/-- `UserService.create`: email pre-check, then username pre-check, then
bcrypt-hash the password and insert via `BaseRepository.create`, which
stamps `created_at`/`updated_at` and `is_active = true`. The inserted
document holds exactly the `UserCreate` fields plus those stamps (the
`User` model defaults are never applied), so `is_verified`,
`failed_login_attempts`, `is_locked` and `last_login` are absent. The
ObjectId chosen by the store is the `newId` parameter. -/
def user_create (db : List UserDoc) (data : UserCreate) (newId : String) (now : Nat) :
    List UserDoc × Except ApiError String :=
  if UserRepo.email_exists db data.email none then
    (db, .error (.badRequest "Email already registered"))
  else if UserRepo.username_exists db data.username none then
    (db, .error (.badRequest "Username already taken"))
  else
    (db ++ [{ id := newId
              email := data.email
              username := data.username
              hashed_password := get_password_hash data.password
              role := data.role
              permissions := data.permissions
              is_active := some true
              is_verified := none
              failed_login_attempts := none
              is_locked := none
              last_login := none
              created_at := now
              updated_at := now }], .ok newId)

/-- `UserUpdate` request model; `none` models a field absent from the
request (`model_dump(exclude_unset=True)` drops it). -/
structure UserUpdate where
  email : Option String
  username : Option String
  role : Option String
  permissions : Option (List String)
  is_active : Option Bool
deriving DecidableEq, Repr

/-- The effect of `BaseRepository.update` with the set fields of a
`UserUpdate` on one user document (plus the `updated_at` stamp). -/
def applyUserUpdate (u : UserDoc) (upd : UserUpdate) (now : Nat) : UserDoc :=
  { u with
    email := upd.email.getD u.email
    username := upd.username.getD u.username
    role := upd.role.getD u.role
    permissions := upd.permissions.getD u.permissions
    is_active := match upd.is_active with
                 | some b => some b
                 | none => u.is_active
    updated_at := now }

/-- `UserService.update`: 404 when the id resolves to no document; email
uniqueness is re-checked (excluding the record's own id) when the request
sets an email; the username uniqueness re-check is commented out in the
source, so a username change is applied without any check. Returns
whether the document actually changed (`modified_count > 0`). -/
def user_update (db : List UserDoc) (user_id : String) (upd : UserUpdate) (now : Nat) :
    List UserDoc × Except ApiError Bool :=
  match UserRepo.get_by_id db user_id with
  | none => (db, .error (.notFound "User not found"))
  | some u =>
    if (match upd.email with
        | some e => UserRepo.email_exists db e (some user_id)
        | none => false) then
      (db, .error (.badRequest "Email already registered"))
    else
      let u' := applyUserUpdate u upd now
      (updateFirst (fun x => x.id == user_id) (fun _ => u') db, .ok (decide (u' ≠ u)))

/-! ### Sale numbering (src/repositories/sale_repository.py) -/

/-- Python `f"{n:04d}"`: the decimal digits of `n`, left-padded with
zeros to width 4 (numbers of five or more digits print unpadded). -/
def format04 (n : Nat) : String :=
  if n < 10000 then
    String.mk [Nat.digitChar (n / 1000 % 10), Nat.digitChar (n / 100 % 10),
               Nat.digitChar (n / 10 % 10), Nat.digitChar (n % 10)]
  else toString n

/-- Python `str.startswith`, over the character data. -/
def strStartsWith (s pre : String) : Bool :=
  pre.data.isPrefixOf s.data

/-- Python `str.split("-")`: split at every dash. -/
def splitDash : List Char → List (List Char)
  | [] => [[]]
  | c :: rest =>
    let r := splitDash rest
    if c = '-' then [] :: r
    else
      match r with
      | [] => [[c]]
      | g :: gs => (c :: g) :: gs

/-- Python `int(...)` on the strings this system produces: a non-empty
all-digit string parses to its decimal value; anything else raises
(modelled as `none`). -/
def parseNat? (cs : List Char) : Option Nat :=
  if cs.isEmpty then none
  else if cs.all (fun c => c.isDigit) then
    some (cs.foldl (fun n c => n * 10 + (c.toNat - 48)) 0)
  else none

/-- Strict lexicographic comparison of character lists by code point:
the order MongoDB uses to sort strings (binary collation). -/
def charListLt : List Char → List Char → Bool
  | [], [] => false
  | [], _ :: _ => true
  | _ :: _, [] => false
  | a :: as, b :: bs =>
    if a < b then true
    else if b < a then false
    else charListLt as bs

/-- Strict lexicographic comparison of strings by code point. -/
def strLt (a b : String) : Bool :=
  charListLt a.data b.data

/-- The greater of two strings under `strLt` (proof helper). -/
def maxS (a b : String) : String :=
  if strLt a b then b else a

/-- Non-strict code-point order on strings (proof helper). -/
def sLE (a b : String) : Prop :=
  a = b ∨ List.Lex (· < ·) a.data b.data

/-- The lexicographically greatest element of a list of strings: the
`sale_number` of `find_one(..., sort=[("sale_number", -1)])`. -/
def maxString? (l : List String) : Option String :=
  l.foldl
    (fun acc sn =>
      match acc with
      | none => some sn
      | some m => if strLt m sn then some sn else some m)
    none

/-- `SaleRepository.generate_sale_number`, over the list of existing
`sale_number` strings and the `strftime("%Y%m%d")` day string. The regex
`^SALE-YYYYMMDD` is a plain startsWith test. `none` models the `int()`
crash on an unparsable suffix (surfaced as a 500 by `SaleService.create`);
system-generated numbers always parse. -/
def generate_sale_number (sales : List String) (day : String) : Option String :=
  let dayTag := "SALE-" ++ day
  match maxString? (sales.filter (fun sn => strStartsWith sn dayTag)) with
  | none => some (dayTag ++ "-" ++ format04 1)
  | some last =>
    match parseNat? ((splitDash last.data).getLastD []) with
    | none => none
    | some lastNumber => some (dayTag ++ "-" ++ format04 (lastNumber + 1))

/-! ### Concrete sample data used by witnesses and counterexamples -/

/-- A syntactically valid ObjectId string (24 hex characters). -/
def sampleId : String := "0123456789abcdef01234567"

/-- A second valid ObjectId string. -/
def sampleId2 : String := "aaaabbbbccccddddeeeeffff"

/-- An active, unlocked user with password "hunter2xx" and id `sampleId`. -/
def sampleUser : UserDoc :=
  { id := sampleId
    email := "ana@example.com"
    username := "ana"
    hashed_password := get_password_hash "hunter2xx"
    role := "user"
    permissions := ["read"]
    is_active := some true
    is_verified := some false
    failed_login_attempts := some 0
    is_locked := some false
    last_login := none
    created_at := 0
    updated_at := 0 }

/-- A second active, unlocked user with password "secretpw9" and id
`sampleId2`. -/
def sampleUser2 : UserDoc :=
  { id := sampleId2
    email := "bob@example.com"
    username := "bob"
    hashed_password := get_password_hash "secretpw9"
    role := "user"
    permissions := ["read"]
    is_active := some true
    is_verified := some false
    failed_login_attempts := some 0
    is_locked := some false
    last_login := none
    created_at := 0
    updated_at := 0 }

/-- An access token for `sampleUser` issued at time 0 under the default
settings (expiry 1800). -/
def sampleToken : Jwt := Security.create_access_token defaultSettings sampleId none 0

end ApiSpec

namespace ApiSpec

/-! ### Helper lemmas about document field maps -/

theorem lookupVal_cons (k : String) (kv : String × BVal) (d : BDoc) :
    lookupVal k (kv :: d) = if kv.1 = k then some kv.2 else lookupVal k d := by
  by_cases h : kv.1 = k
  · simp [lookupVal, List.find?, h]
  · have hb : (kv.1 == k) = false := by simpa using h
    simp [lookupVal, List.find?, hb, h]

theorem applySet_cons (doc : BDoc) (kv : String × BVal) (rest : BDoc) :
    applySet doc (kv :: rest) = applySet (setVal kv.1 kv.2 doc) rest := rfl

theorem lookup_setVal_self (k : String) (v : BVal) (d : BDoc) :
    lookupVal k (setVal k v d) = some v := by
  induction d with
  | nil => simp [setVal, lookupVal_cons]
  | cons kv rest ih =>
    by_cases h : kv.1 = k
    · simp [setVal, h, lookupVal_cons]
    · simp [setVal, h, lookupVal_cons, ih]

theorem lookup_setVal_ne (k k' : String) (v : BVal) (d : BDoc) (h : k ≠ k') :
    lookupVal k (setVal k' v d) = lookupVal k d := by
  induction d with
  | nil => simp [setVal, lookupVal_cons, lookupVal, Ne.symm h]
  | cons kv rest ih =>
    obtain ⟨k₀, v₀⟩ := kv
    by_cases hk : k₀ = k'
    · subst hk
      simp [setVal, lookupVal_cons, Ne.symm h]
    · simp [setVal, hk, lookupVal_cons, ih]

theorem mem_dKeys_setVal (a k : String) (v : BVal) (d : BDoc) :
    a ∈ dKeys (setVal k v d) ↔ a ∈ dKeys d ∨ a = k := by
  induction d with
  | nil => simp [setVal, dKeys]
  | cons kv rest ih =>
    obtain ⟨k₀, v₀⟩ := kv
    by_cases hk : k₀ = k
    · subst hk
      simp [setVal, dKeys]
      tauto
    · simp only [setVal, if_neg hk, dKeys, List.map_cons, List.mem_cons] at ih ⊢
      rw [ih]
      tauto

theorem dKeys_setVal_nodup (k : String) (v : BVal) (d : BDoc)
    (h : (dKeys d).Nodup) : (dKeys (setVal k v d)).Nodup := by
  induction d with
  | nil => simp [setVal, dKeys]
  | cons kv rest ih =>
    obtain ⟨k₀, v₀⟩ := kv
    simp only [dKeys, List.map_cons, List.nodup_cons] at h
    by_cases hk : k₀ = k
    · subst hk
      simpa [setVal, dKeys, List.nodup_cons] using And.intro h.1 h.2
    · simp only [setVal, if_neg hk, dKeys, List.map_cons, List.nodup_cons]
      refine ⟨?_, ih h.2⟩
      intro hmem
      rcases (mem_dKeys_setVal k₀ k v rest).mp hmem with hin | heq
      · exact h.1 hin
      · exact hk heq

theorem mem_setVal_self (k : String) (v : BVal) (d : BDoc) : (k, v) ∈ setVal k v d := by
  induction d with
  | nil => simp [setVal]
  | cons kv rest ih =>
    by_cases h : kv.1 = k
    · simp [setVal, h]
    · simp only [setVal, if_neg h]
      exact List.mem_cons_of_mem kv ih

theorem lookup_applySet_not_mem (doc upd : BDoc) (k : String) (h : k ∉ dKeys upd) :
    lookupVal k (applySet doc upd) = lookupVal k doc := by
  induction upd generalizing doc with
  | nil => simp [applySet]
  | cons kv rest ih =>
    simp only [dKeys, List.map_cons, List.mem_cons, not_or] at h
    rw [applySet_cons, ih (setVal kv.1 kv.2 doc) h.2,
      lookup_setVal_ne k kv.1 kv.2 doc h.1]

theorem lookup_applySet_of_mem (doc upd : BDoc) (k : String) (v : BVal)
    (hnd : (dKeys upd).Nodup) (hm : (k, v) ∈ upd) :
    lookupVal k (applySet doc upd) = some v := by
  induction upd generalizing doc with
  | nil => cases hm
  | cons kv rest ih =>
    obtain ⟨k₀, v₀⟩ := kv
    simp only [dKeys, List.map_cons, List.nodup_cons] at hnd
    rw [applySet_cons]
    rcases List.mem_cons.mp hm with heq | hin
    · injection heq with h1 h2
      subst h1
      subst h2
      rw [lookup_applySet_not_mem (setVal k v doc) rest k (by simpa [dKeys] using hnd.1),
        lookup_setVal_self]
    · exact ih (setVal k₀ v₀ doc) hnd.2 hin

/-! ### Helper lemmas about code-point string order and sale numbers -/

theorem charListLt_iff (l₁ l₂ : List Char) :
    charListLt l₁ l₂ = true ↔ List.Lex (· < ·) l₁ l₂ := by
  induction l₁ generalizing l₂ with
  | nil =>
    cases l₂ with
    | nil => exact iff_of_false (by simp [charListLt]) (List.Lex.not_nil_right _ _)
    | cons b bs => exact iff_of_true rfl List.Lex.nil
  | cons a as ih =>
    cases l₂ with
    | nil => exact iff_of_false (by simp [charListLt]) (List.Lex.not_nil_right _ _)
    | cons b bs =>
      rcases lt_trichotomy a b with h | h | h
      · exact iff_of_true (by simp [charListLt, h]) (List.Lex.rel h)
      · subst h
        have he : charListLt (a :: as) (a :: bs) = charListLt as bs := by
          simp [charListLt]
        rw [he, List.Lex.cons_iff]
        exact ih bs
      · refine iff_of_false (by simp [charListLt, asymm h, h]) ?_
        intro hl
        cases hl with
        | cons h' => exact lt_irrefl _ h
        | rel h' => exact asymm h h'

theorem sLE_refl (a : String) : sLE a a := Or.inl rfl

theorem sLE_of_strLt (a b : String) (h : strLt a b = true) : sLE a b :=
  Or.inr ((charListLt_iff _ _).mp h)

theorem sLE_of_not_strLt (a b : String) (h : strLt a b = false) : sLE b a := by
  have hne : ¬ List.Lex (· < ·) a.data b.data := by
    rw [← charListLt_iff]
    simp [strLt] at h
    simp [h]
  have htri : List.Lex (· < ·) a.data b.data ∨ a.data = b.data ∨
      List.Lex (· < ·) b.data a.data := trichotomous a.data b.data
  rcases htri with h1 | h1 | h1
  · exact absurd h1 hne
  · exact Or.inl (String.ext h1).symm
  · exact Or.inr h1

theorem sLE_trans (a b c : String) (h1 : sLE a b) (h2 : sLE b c) : sLE a c := by
  rcases h1 with rfl | h1
  · exact h2
  · rcases h2 with rfl | h2
    · exact Or.inr h1
    · exact Or.inr (Trans.trans h1 h2)

theorem sLE_antisymm (a b : String) (h1 : sLE a b) (h2 : sLE b a) : a = b := by
  rcases h1 with rfl | h1
  · rfl
  rcases h2 with rfl | h2
  · rfl
  exact (asymm h1 h2).elim

theorem sLE_maxS_left (a b : String) : sLE a (maxS a b) := by
  cases hb : strLt a b
  · simp only [maxS, hb, Bool.false_eq_true, if_false]
    exact sLE_refl a
  · simp only [maxS, hb, if_true]
    exact sLE_of_strLt a b hb

theorem sLE_maxS_right (a b : String) : sLE b (maxS a b) := by
  cases hb : strLt a b
  · simp only [maxS, hb, Bool.false_eq_true, if_false]
    exact sLE_of_not_strLt a b hb
  · simp only [maxS, hb, if_true]
    exact sLE_refl b

theorem maxS_mem (a b : String) : maxS a b = a ∨ maxS a b = b := by
  cases hb : strLt a b <;> simp [maxS, hb]

theorem foldl_maxS_mem (xs : List String) (a : String) :
    xs.foldl maxS a = a ∨ xs.foldl maxS a ∈ xs := by
  induction xs generalizing a with
  | nil => exact Or.inl rfl
  | cons x xs ih =>
    simp only [List.foldl_cons]
    rcases ih (maxS a x) with h | h
    · rcases maxS_mem a x with h' | h'
      · exact Or.inl (h.trans h')
      · refine Or.inr ?_
        rw [h, h']
        exact List.mem_cons_self x xs
    · exact Or.inr (List.mem_cons_of_mem x h)

theorem foldl_maxS_ub (xs : List String) (a : String) :
    sLE a (xs.foldl maxS a) ∧ ∀ x ∈ xs, sLE x (xs.foldl maxS a) := by
  induction xs generalizing a with
  | nil =>
    refine ⟨sLE_refl a, ?_⟩
    intro x hx
    exact absurd hx (List.not_mem_nil x)
  | cons y ys ih =>
    simp only [List.foldl_cons]
    obtain ⟨h1, h2⟩ := ih (maxS a y)
    refine ⟨sLE_trans _ _ _ (sLE_maxS_left a y) h1, ?_⟩
    intro x hx
    rcases List.mem_cons.mp hx with rfl | hx
    · exact sLE_trans _ _ _ (sLE_maxS_right a x) h1
    · exact h2 x hx

theorem maxString?_cons (x : String) (xs : List String) :
    maxString? (x :: xs) = some (xs.foldl maxS x) := by
  have step : ∀ (ys : List String) (a : String),
      ys.foldl
        (fun acc sn =>
          match acc with
          | none => some sn
          | some m => if strLt m sn then some sn else some m) (some a)
        = some (ys.foldl maxS a) := by
    intro ys
    induction ys with
    | nil => intro a; rfl
    | cons y ys ih =>
      intro a
      simp only [List.foldl_cons]
      rw [← ih (maxS a y)]
      congr 1
      cases hb : strLt a y <;> simp [maxS, hb]
  simp only [maxString?, List.foldl_cons]
  exact step xs x

theorem maxString?_eq_of_ub (l : List String) (M : String) (hM : M ∈ l)
    (hub : ∀ x ∈ l, sLE x M) : maxString? l = some M := by
  cases l with
  | nil => cases hM
  | cons a xs =>
    rw [maxString?_cons]
    obtain ⟨hub1, hub2⟩ := foldl_maxS_ub xs a
    have h1 : sLE (xs.foldl maxS a) M := by
      rcases foldl_maxS_mem xs a with h | h
      · rw [h]
        exact hub a (List.mem_cons_self a xs)
      · exact hub _ (List.mem_cons_of_mem a h)
    have h2 : sLE M (xs.foldl maxS a) := by
      rcases List.mem_cons.mp hM with rfl | h
      · exact hub1
      · exact hub2 M h
    rw [sLE_antisymm _ _ h1 h2]

theorem digitChar_lt_iff :
    ∀ d, d < 10 → ∀ e, e < 10 → ((Nat.digitChar d < Nat.digitChar e) ↔ d < e) := by decide

theorem digitChar_isDigit : ∀ d, d < 10 → (Nat.digitChar d).isDigit = true := by decide

theorem digitChar_sub48 : ∀ d, d < 10 → (Nat.digitChar d).toNat - 48 = d := by decide

theorem digitChar_ne_dash : ∀ d, d < 10 → Nat.digitChar d ≠ '-' := by decide

theorem format04_lex_lt (a b : Nat) (hb : b < 10000) (hab : a < b) :
    List.Lex (· < ·) (format04 a).data (format04 b).data := by
  have ha : a < 10000 := hab.trans hb
  have h3a : a / 1000 % 10 < 10 := Nat.mod_lt _ (by norm_num)
  have h2a : a / 100 % 10 < 10 := Nat.mod_lt _ (by norm_num)
  have h1a : a / 10 % 10 < 10 := Nat.mod_lt _ (by norm_num)
  have h0a : a % 10 < 10 := Nat.mod_lt _ (by norm_num)
  have h3b : b / 1000 % 10 < 10 := Nat.mod_lt _ (by norm_num)
  have h2b : b / 100 % 10 < 10 := Nat.mod_lt _ (by norm_num)
  have h1b : b / 10 % 10 < 10 := Nat.mod_lt _ (by norm_num)
  have h0b : b % 10 < 10 := Nat.mod_lt _ (by norm_num)
  simp only [format04, if_pos ha, if_pos hb]
  show List.Lex (· < ·)
    [Nat.digitChar (a / 1000 % 10), Nat.digitChar (a / 100 % 10),
     Nat.digitChar (a / 10 % 10), Nat.digitChar (a % 10)]
    [Nat.digitChar (b / 1000 % 10), Nat.digitChar (b / 100 % 10),
     Nat.digitChar (b / 10 % 10), Nat.digitChar (b % 10)]
  rcases lt_trichotomy (a / 1000 % 10) (b / 1000 % 10) with h3 | h3 | h3
  · exact List.Lex.rel ((digitChar_lt_iff _ h3a _ h3b).mpr h3)
  · rw [h3]
    apply List.Lex.cons
    rcases lt_trichotomy (a / 100 % 10) (b / 100 % 10) with h2 | h2 | h2
    · exact List.Lex.rel ((digitChar_lt_iff _ h2a _ h2b).mpr h2)
    · rw [h2]
      apply List.Lex.cons
      rcases lt_trichotomy (a / 10 % 10) (b / 10 % 10) with h1 | h1 | h1
      · exact List.Lex.rel ((digitChar_lt_iff _ h1a _ h1b).mpr h1)
      · rw [h1]
        apply List.Lex.cons
        have h0 : a % 10 < b % 10 := by omega
        exact List.Lex.rel ((digitChar_lt_iff _ h0a _ h0b).mpr h0)
      · exfalso
        omega
    · exfalso
      omega
  · exfalso
    omega

theorem parseNat?_format04 (m : Nat) (hm : m < 10000) :
    parseNat? (format04 m).data = some m := by
  have h3 : m / 1000 % 10 < 10 := Nat.mod_lt _ (by norm_num)
  have h2 : m / 100 % 10 < 10 := Nat.mod_lt _ (by norm_num)
  have h1 : m / 10 % 10 < 10 := Nat.mod_lt _ (by norm_num)
  have h0 : m % 10 < 10 := Nat.mod_lt _ (by norm_num)
  simp only [format04, if_pos hm]
  show parseNat? [Nat.digitChar (m / 1000 % 10), Nat.digitChar (m / 100 % 10),
    Nat.digitChar (m / 10 % 10), Nat.digitChar (m % 10)] = some m
  have hall : ([Nat.digitChar (m / 1000 % 10), Nat.digitChar (m / 100 % 10),
      Nat.digitChar (m / 10 % 10), Nat.digitChar (m % 10)].all (fun c => c.isDigit)) = true := by
    simp [digitChar_isDigit _ h3, digitChar_isDigit _ h2,
      digitChar_isDigit _ h1, digitChar_isDigit _ h0]
  simp only [parseNat?, List.isEmpty, hall, if_true, if_false, Bool.false_eq_true,
    List.foldl_cons, List.foldl_nil]
  rw [digitChar_sub48 _ h3, digitChar_sub48 _ h2, digitChar_sub48 _ h1, digitChar_sub48 _ h0]
  exact congrArg some (by omega)

theorem format04_no_dash (m : Nat) (hm : m < 10000) : '-' ∉ (format04 m).data := by
  have h3 : m / 1000 % 10 < 10 := Nat.mod_lt _ (by norm_num)
  have h2 : m / 100 % 10 < 10 := Nat.mod_lt _ (by norm_num)
  have h1 : m / 10 % 10 < 10 := Nat.mod_lt _ (by norm_num)
  have h0 : m % 10 < 10 := Nat.mod_lt _ (by norm_num)
  simp only [format04, if_pos hm]
  intro h
  simp only [List.mem_cons, List.not_mem_nil, or_false] at h
  rcases h with h | h | h | h
  · exact digitChar_ne_dash _ h3 h.symm
  · exact digitChar_ne_dash _ h2 h.symm
  · exact digitChar_ne_dash _ h1 h.symm
  · exact digitChar_ne_dash _ h0 h.symm

theorem splitDash_ne_nil (l : List Char) : splitDash l ≠ [] := by
  induction l with
  | nil => simp [splitDash]
  | cons c rest ih =>
    simp only [splitDash]
    by_cases hc : c = '-'
    · simp [hc]
    · simp only [if_neg hc]
      cases h : splitDash rest with
      | nil => simp
      | cons g gs => simp

theorem splitDash_no_dash (A : List Char) (h : '-' ∉ A) : splitDash A = [A] := by
  induction A with
  | nil => rfl
  | cons c rest ih =>
    simp only [List.mem_cons, not_or] at h
    have hc : ¬(c = '-') := fun hh => h.1 hh.symm
    simp only [splitDash, if_neg hc, ih h.2]

theorem splitDash_cons_dash (rest : List Char) :
    splitDash ('-' :: rest) = [] :: splitDash rest := by
  simp [splitDash]

theorem splitDash_cons_ne (c : Char) (rest : List Char) (hc : ¬ c = '-') :
    splitDash (c :: rest) =
      (match splitDash rest with
       | [] => [[c]]
       | g :: gs => (c :: g) :: gs) := by
  simp [splitDash, hc]

theorem splitDash_len2 (P A : List Char) :
    2 ≤ (splitDash (P ++ '-' :: A)).length := by
  induction P with
  | nil =>
    rw [List.nil_append, splitDash_cons_dash]
    have hlen : 0 < (splitDash A).length :=
      List.length_pos.mpr (splitDash_ne_nil A)
    simp only [List.length_cons]
    omega
  | cons c P ih =>
    rw [List.cons_append]
    by_cases hc : c = '-'
    · subst hc
      rw [splitDash_cons_dash]
      simp only [List.length_cons]
      omega
    · rw [splitDash_cons_ne c _ hc]
      cases h : splitDash (P ++ '-' :: A) with
      | nil => exact absurd h (splitDash_ne_nil _)
      | cons g gs =>
        rw [h] at ih
        simpa using ih

theorem getLastD_irrel {α : Type} (l : List α) (h : l ≠ []) (d₁ d₂ : α) :
    l.getLastD d₁ = l.getLastD d₂ := by
  cases l with
  | nil => exact absurd rfl h
  | cons a l => rw [List.getLastD_cons, List.getLastD_cons]

theorem splitDash_getLast (P A : List Char) (hA : '-' ∉ A) :
    (splitDash (P ++ '-' :: A)).getLastD [] = A := by
  induction P with
  | nil =>
    simp only [List.nil_append, splitDash, if_pos rfl, splitDash_no_dash A hA]
    rfl
  | cons c P ih =>
    simp only [List.cons_append, splitDash]
    by_cases hc : c = '-'
    · simp only [if_pos hc]
      rw [List.getLastD_cons]
      exact ih
    · simp only [if_neg hc]
      cases h : splitDash (P ++ '-' :: A) with
      | nil => exact absurd h (splitDash_ne_nil _)
      | cons g gs =>
        cases gs with
        | nil =>
          exfalso
          have h2 := splitDash_len2 P A
          rw [h] at h2
          simp at h2
        | cons g2 gs2 =>
          rw [h] at ih
          rw [List.getLastD_cons] at ih ⊢
          rw [getLastD_irrel (g2 :: gs2) (by simp) (c :: g) g]
          exact ih

theorem isPrefixOf_append (l r : List Char) : l.isPrefixOf (l ++ r) = true := by
  induction l with
  | nil => simp [List.isPrefixOf]
  | cons a as ih => simp [List.isPrefixOf, ih]

theorem strStartsWith_append (p x : String) : strStartsWith (p ++ x) p = true := by
  simp [strStartsWith, String.data_append, isPrefixOf_append]

/-- One wrong-password `authenticate` call against a single-user
collection: the counter is incremented, and the account is locked (with
an `updated_at` stamp) exactly when the counter read before the increment
was already at least 4; the attempt itself fails with 401. -/
theorem authenticate_wrong_step (s : Settings) (uid em un hp rl : String) (pm : List String)
    (iv il : Option Bool) (ll : Option Nat) (ca ua : Nat)
    (fla : Option Nat) (wrong : String) (t : Nat)
    (hunlocked : il.getD false = false)
    (hvalid : isValidObjectId uid = true)
    (hwrong : verify_password wrong hp = false) :
    authenticate s [⟨uid, em, un, hp, rl, pm, some true, iv, fla, il, ll, ca, ua⟩]
      ⟨em, wrong⟩ t =
      (if fla.getD 0 ≥ 4 then
        [⟨uid, em, un, hp, rl, pm, some true, iv, some (fla.getD 0 + 1), some true, ll, ca, t⟩]
       else
        [⟨uid, em, un, hp, rl, pm, some true, iv, some (fla.getD 0 + 1), il, ll, ca, ua⟩],
       .error (.unauthorized "Invalid credentials")) := by
  by_cases hge : fla.getD 0 ≥ 4 <;>
    simp [authenticate, UserRepo.get_by_email, UserRepo.increment_failed_attempts,
      UserRepo.lock_user, updateFirst, List.find?, hunlocked, hvalid, hwrong, hge]

/-- Any `authenticate` call against a locked account fails with 423 and
leaves the collection unchanged, whatever the password. -/
theorem authenticate_locked_step (s : Settings) (uid em un hp rl : String) (pm : List String)
    (iv : Option Bool) (fla : Option Nat) (ll : Option Nat) (ca ua : Nat)
    (pw : String) (t : Nat) :
    authenticate s [⟨uid, em, un, hp, rl, pm, some true, iv, fla, some true, ll, ca, ua⟩]
      ⟨em, pw⟩ t =
      ([⟨uid, em, un, hp, rl, pm, some true, iv, fla, some true, ll, ca, ua⟩],
       .error (.locked "Account is locked")) := by
  simp [authenticate, UserRepo.get_by_email, List.find?]

/-! ### Claim theorems -/

/-- **C6** (confirmed): `decode (issue id kind ttl)` recovers exactly the
subject and the kind, for both kinds, whenever the decode happens before
the embedded expiry. -/
theorem issue_decode_roundtrip (s : Settings) (subject : String) (delta : Option Nat)
    (tIssue tDec tDec' : Nat)
    (hAcc : tDec < (Security.create_access_token s subject delta tIssue).payload.exp)
    (hRef : tDec' < (Security.create_refresh_token s subject tIssue).payload.exp) :
    Security.verify_token s (Security.create_access_token s subject delta tIssue) tDec =
      some { sub := subject
             exp := tIssue + delta.getD (s.ACCESS_TOKEN_EXPIRE_MINUTES * 60)
             type := "access" } ∧
    Security.verify_token s (Security.create_refresh_token s subject tIssue) tDec' =
      some { sub := subject, exp := tIssue + s.REFRESH_TOKEN_EXPIRE_DAYS * 86400
             type := "refresh" } := by
  simp only [Security.create_access_token, Security.create_refresh_token] at hAcc hRef ⊢
  constructor <;> simp [Security.verify_token, hAcc, hRef]

/-- Witness for C6 at the default settings. -/
theorem issue_decode_roundtrip_witness :
    Security.verify_token defaultSettings
        (Security.create_access_token defaultSettings "u" none 0) 5 =
      some { sub := "u", exp := 0 + Option.getD none (defaultSettings.ACCESS_TOKEN_EXPIRE_MINUTES * 60)
             type := "access" } ∧
    Security.verify_token defaultSettings
        (Security.create_refresh_token defaultSettings "u" 0) 7 =
      some { sub := "u", exp := 0 + defaultSettings.REFRESH_TOKEN_EXPIRE_DAYS * 86400
             type := "refresh" } :=
  issue_decode_roundtrip defaultSettings "u" none 0 5 7 (by decide) (by decide)

/-- **C10** (confirmed): the Access Guard treats a user document lacking the
`is_active` key as active: `get_current_user` admits the request. -/
theorem guard_admits_user_without_is_active (s : Settings) (db : List UserDoc)
    (token : Jwt) (now : Nat) (u : UserDoc)
    (hkey : token.key = s.SECRET_KEY) (halg : token.alg = s.ALGORITHM)
    (hexp : now < token.payload.exp)
    (hsub : token.payload.sub = u.id) (hne : u.id ≠ "")
    (hfind : UserRepo.get_by_id db u.id = some u)
    (hact : u.is_active = none) :
    get_current_user s db token now = .ok u := by
  simp [get_current_user, Security.verify_token, hkey, halg, hexp, hsub, hne, hfind, hact]

/-- Witness for C10: a stored user without the `is_active` field is admitted. -/
theorem guard_admits_user_without_is_active_witness :
    get_current_user defaultSettings [{ sampleUser with is_active := none }]
      sampleToken 5 = .ok { sampleUser with is_active := none } :=
  guard_admits_user_without_is_active defaultSettings _ _ 5 _
    (by decide) (by decide) (by decide) (by decide) (by decide) (by decide) (by decide)

/-- **C9** (confirmed): the refresh endpoint never consults the Revocation
Registry: for any app state `st` — including one whose blacklist contains
this very token — a validly signed, unexpired refresh token yields a fresh
token pair. -/
theorem refresh_ignores_revocation (s : Settings) (st : AppState) (token : Jwt) (now : Nat)
    (hkey : token.key = s.SECRET_KEY) (halg : token.alg = s.ALGORITHM)
    (hexp : now < token.payload.exp) (htype : token.payload.type = "refresh") :
    refresh_endpoint s st token now =
      .ok { access_token := TokenUtils.create_access_token token.payload.sub now
            refresh_token := TokenUtils.create_refresh_token token.payload.sub now
            token_type := "bearer"
            expires_in := s.ACCESS_TOKEN_EXPIRE_MINUTES * 60 } := by
  simp [refresh_endpoint, Security.verify_token, hkey, halg, hexp, htype]

/-- Witness for C9: the token has been logged out (it is in the blacklist),
yet refresh succeeds. -/
theorem refresh_ignores_revocation_witness :
    is_token_revoked
      (logout { revoked_tokens := [], users := [sampleUser] }
        (Security.create_refresh_token defaultSettings sampleId 0)).1
      (Security.create_refresh_token defaultSettings sampleId 0) = true ∧
    refresh_endpoint defaultSettings
      (logout { revoked_tokens := [], users := [sampleUser] }
        (Security.create_refresh_token defaultSettings sampleId 0)).1
      (Security.create_refresh_token defaultSettings sampleId 0) 9 =
      .ok { access_token := TokenUtils.create_access_token sampleId 9
            refresh_token := TokenUtils.create_refresh_token sampleId 9
            token_type := "bearer"
            expires_in := defaultSettings.ACCESS_TOKEN_EXPIRE_MINUTES * 60 } :=
  ⟨by decide,
   refresh_ignores_revocation defaultSettings _ _ 9 (by decide) (by decide) (by decide) (by decide)⟩

/-- **C3 counterexample**: the two token codecs are not equivalent. An
access token issued by the refresh endpoint's factory (hardcoded key,
15-minute TTL) is rejected by the Access Guard under the default settings
although it is unexpired and its own codec decodes it, because the signing
keys differ. -/
theorem token_codecs_not_equivalent_cex :
    get_current_user defaultSettings [sampleUser] (TokenUtils.create_access_token sampleId 0) 1 =
      .error (.unauthorized "Invalid authentication credentials") ∧
    1 < (TokenUtils.create_access_token sampleId 0).payload.exp ∧
    TokenUtils.decode_jwt (TokenUtils.create_access_token sampleId 0) 1 =
      some { sub := sampleId, exp := 900, type := "access" } ∧
    defaultSettings.SECRET_KEY ≠ TokenUtils.SECRET_KEY := by decide

/-- **C3 amended** (corrected): the codecs disagree — `token_utils` signs
with the hardcoded key `"tu_secreto_super_seguro"` and a 15-minute access
TTL while `core.security` verifies against `settings.SECRET_KEY` — so
whenever `settings.SECRET_KEY` differs from the hardcoded key, an access
token issued by `POST /auth/refresh` is rejected by `get_current_user`
with `Unauthenticated`. -/
theorem refresh_issued_token_rejected (s : Settings) (db : List UserDoc) (subject : String)
    (tIssue tDec : Nat) (hkey : s.SECRET_KEY ≠ TokenUtils.SECRET_KEY) :
    get_current_user s db (TokenUtils.create_access_token subject tIssue) tDec =
      .error (.unauthorized "Invalid authentication credentials") := by
  simp [get_current_user, Security.verify_token, TokenUtils.create_access_token, Ne.symm hkey]

/-- Witness for the amended C3 at the default settings. -/
theorem refresh_issued_token_rejected_witness :
    get_current_user defaultSettings [sampleUser] (TokenUtils.create_access_token sampleId 0) 1 =
      .error (.unauthorized "Invalid authentication credentials") :=
  refresh_issued_token_rejected defaultSettings [sampleUser] sampleId 0 1 (by decide)

/-- **C4 counterexample**: a token pair issued by the refresh operation
under the default configuration has an access token expiring 900 seconds
(15 minutes) after issuance — not the claimed 30 minutes — while the
returned `expires_in` is 1800, which is not the actual validity. -/
theorem refresh_ttl_cex :
    refresh_endpoint defaultSettings { revoked_tokens := [], users := [] }
        (Security.create_refresh_token defaultSettings "u" 0) 0 =
      .ok { access_token := { payload := { sub := "u", exp := 900, type := "access" }
                              key := TokenUtils.SECRET_KEY, alg := "HS256" }
            refresh_token := { payload := { sub := "u", exp := 604800, type := "refresh" }
                               key := TokenUtils.SECRET_KEY, alg := "HS256" }
            token_type := "bearer", expires_in := 1800 } ∧
    (900 : Nat) ≠ 0 + 1800 := by decide

/-- **C4 amended** (corrected): under the default configuration, tokens
issued at login have a 30-minute access expiry, a 7-day refresh expiry and
`expires_in` equal to the actual access validity; tokens issued by the
refresh operation have a 15-minute access expiry and a 7-day refresh
expiry, while `expires_in` still reports 1800 seconds. -/
theorem token_ttl_default (db : List UserDoc) (u : UserDoc) (login : UserLogin)
    (st : AppState) (rtok : Jwt) (tL tR : Nat)
    (hfind : UserRepo.get_by_email db login.email = some u)
    (hlock : u.is_locked.getD false = false)
    (hpw : verify_password login.password u.hashed_password = true)
    (hkey : rtok.key = defaultSettings.SECRET_KEY)
    (halg : rtok.alg = defaultSettings.ALGORITHM)
    (hexp : tR < rtok.payload.exp) (htype : rtok.payload.type = "refresh") :
    (authenticate defaultSettings db login tL).2 = .ok
      { access_token := { payload := { sub := u.id, exp := tL + 1800, type := "access" }
                          key := defaultSettings.SECRET_KEY, alg := defaultSettings.ALGORITHM }
        refresh_token := { payload := { sub := u.id, exp := tL + 604800, type := "refresh" }
                           key := defaultSettings.SECRET_KEY, alg := defaultSettings.ALGORITHM }
        token_type := "bearer"
        expires_in := 1800
        user := { u with hashed_password := "" } } ∧
    refresh_endpoint defaultSettings st rtok tR = .ok
      { access_token := { payload := { sub := rtok.payload.sub, exp := tR + 900, type := "access" }
                          key := TokenUtils.SECRET_KEY, alg := "HS256" }
        refresh_token := { payload := { sub := rtok.payload.sub, exp := tR + 604800, type := "refresh" }
                           key := TokenUtils.SECRET_KEY, alg := "HS256" }
        token_type := "bearer"
        expires_in := 1800 } := by
  constructor
  · simp [authenticate, hfind, hlock, hpw, Security.create_access_token,
      Security.create_refresh_token, defaultSettings]
  · simp [refresh_endpoint, Security.verify_token, hkey, halg, hexp, htype,
      TokenUtils.create_access_token, TokenUtils.create_refresh_token,
      TokenUtils.ACCESS_TOKEN_EXPIRE_MINUTES, TokenUtils.REFRESH_TOKEN_EXPIRE_DAYS,
      TokenUtils.ALGORITHM, defaultSettings]

/-- Witness for the amended C4: a successful login of `sampleUser` at time
2 and a refresh at time 3. -/
theorem token_ttl_default_witness :
    (authenticate defaultSettings [sampleUser]
        { email := "ana@example.com", password := "hunter2xx" } 2).2 = .ok
      { access_token := { payload := { sub := sampleUser.id, exp := 2 + 1800, type := "access" }
                          key := defaultSettings.SECRET_KEY, alg := defaultSettings.ALGORITHM }
        refresh_token := { payload := { sub := sampleUser.id, exp := 2 + 604800, type := "refresh" }
                           key := defaultSettings.SECRET_KEY, alg := defaultSettings.ALGORITHM }
        token_type := "bearer"
        expires_in := 1800
        user := { sampleUser with hashed_password := "" } } ∧
    refresh_endpoint defaultSettings { revoked_tokens := [], users := [] }
        (Security.create_refresh_token defaultSettings "x" 0) 3 = .ok
      { access_token :=
          { payload := { sub := (Security.create_refresh_token defaultSettings "x" 0).payload.sub
                         exp := 3 + 900, type := "access" }
            key := TokenUtils.SECRET_KEY, alg := "HS256" }
        refresh_token :=
          { payload := { sub := (Security.create_refresh_token defaultSettings "x" 0).payload.sub
                         exp := 3 + 604800, type := "refresh" }
            key := TokenUtils.SECRET_KEY, alg := "HS256" }
        token_type := "bearer"
        expires_in := 1800 } :=
  token_ttl_default [sampleUser] sampleUser { email := "ana@example.com", password := "hunter2xx" }
    { revoked_tokens := [], users := [] } (Security.create_refresh_token defaultSettings "x" 0) 2 3
    (by decide) (by decide) (by decide) (by decide) (by decide) (by decide) (by decide)

/-- **C1** (the code contradicts the claim): logging a token out and then
presenting that very token to the guard that protects the entity
endpoints (`get_current_active_user`) succeeds — that guard never reads
the Revocation Registry. Only the unused `verify_token` dependency of
`src/api/v1/endpoints/deps.py` would reject it. -/
theorem revoked_token_accepted_by_entity_guard :
    is_token_revoked
      (logout { revoked_tokens := [], users := [sampleUser] } sampleToken).1 sampleToken = true ∧
    get_current_active_user defaultSettings
      (logout { revoked_tokens := [], users := [sampleUser] } sampleToken).1.users
      sampleToken 5 = .ok sampleUser ∧
    verify_token_dep
      (logout { revoked_tokens := [], users := [sampleUser] } sampleToken).1 sampleToken 5 =
      .error (.unauthorized "Token has been revoked") := by decide

/-- **C2** (confirmed): for any active, unlocked identity whose stored
failed-attempt counter reads 0, five consecutive wrong-password
`authenticate` calls leave it with `is_locked = true`; the fifth attempt
itself fails with `InvalidCredentials` (401), not `AccountLocked`; and
every subsequent call — the state no longer changes — fails with
`AccountLocked` (423) whatever the password, even the correct one. -/
theorem lockout_after_five_failures (s : Settings) (u : UserDoc) (wrong : String)
    (t1 t2 t3 t4 t5 : Nat)
    (hact : u.is_active = some true)
    (hunlocked : u.is_locked.getD false = false)
    (hcnt : u.failed_login_attempts.getD 0 = 0)
    (hvalid : isValidObjectId u.id = true)
    (hwrong : verify_password wrong u.hashed_password = false) :
    authenticate s
      ((authenticate s
        ((authenticate s
          ((authenticate s
            ((authenticate s [u] ⟨u.email, wrong⟩ t1).1)
            ⟨u.email, wrong⟩ t2).1)
          ⟨u.email, wrong⟩ t3).1)
        ⟨u.email, wrong⟩ t4).1)
      ⟨u.email, wrong⟩ t5 =
      ([{ u with failed_login_attempts := some 5, is_locked := some true, updated_at := t5 }],
       .error (.unauthorized "Invalid credentials")) ∧
    (∀ pw t6,
      authenticate s
        [{ u with failed_login_attempts := some 5, is_locked := some true, updated_at := t5 }]
        ⟨u.email, pw⟩ t6 =
        ([{ u with failed_login_attempts := some 5, is_locked := some true, updated_at := t5 }],
         .error (.locked "Account is locked"))) := by
  obtain ⟨uid, em, un, hp, rl, pm, ia, iv, fla, il, ll, ca, ua⟩ := u
  dsimp only at hact hunlocked hcnt hvalid hwrong ⊢
  subst hact
  have h1 := authenticate_wrong_step s uid em un hp rl pm iv il ll ca ua fla wrong t1
    hunlocked hvalid hwrong
  rw [hcnt] at h1
  norm_num at h1
  have h2 := authenticate_wrong_step s uid em un hp rl pm iv il ll ca ua (some 1) wrong t2
    hunlocked hvalid hwrong
  norm_num at h2
  have h3 := authenticate_wrong_step s uid em un hp rl pm iv il ll ca ua (some 2) wrong t3
    hunlocked hvalid hwrong
  norm_num at h3
  have h4 := authenticate_wrong_step s uid em un hp rl pm iv il ll ca ua (some 3) wrong t4
    hunlocked hvalid hwrong
  norm_num at h4
  have h5 := authenticate_wrong_step s uid em un hp rl pm iv il ll ca ua (some 4) wrong t5
    hunlocked hvalid hwrong
  norm_num at h5
  refine ⟨?_, ?_⟩
  · rw [h1]
    dsimp only
    rw [h2]
    dsimp only
    rw [h3]
    dsimp only
    rw [h4]
    dsimp only
    rw [h5]
  · intro pw t6
    exact authenticate_locked_step s uid em un hp rl pm iv (some 5) ll ca t5 pw t6

/-- Witness for C2: `sampleUser` (counter 0, active, unlocked), five wrong
passwords "x" at times 1..5, then the correct password "hunter2xx" at
time 99 still yields `AccountLocked`. -/
theorem lockout_after_five_failures_witness :
    authenticate defaultSettings
      ((authenticate defaultSettings
        ((authenticate defaultSettings
          ((authenticate defaultSettings
            ((authenticate defaultSettings [sampleUser] ⟨sampleUser.email, "x"⟩ 1).1)
            ⟨sampleUser.email, "x"⟩ 2).1)
          ⟨sampleUser.email, "x"⟩ 3).1)
        ⟨sampleUser.email, "x"⟩ 4).1)
      ⟨sampleUser.email, "x"⟩ 5 =
      ([{ sampleUser with
          failed_login_attempts := some 5, is_locked := some true, updated_at := 5 }],
       .error (.unauthorized "Invalid credentials")) ∧
    authenticate defaultSettings
      [{ sampleUser with
         failed_login_attempts := some 5, is_locked := some true, updated_at := 5 }]
      ⟨sampleUser.email, "hunter2xx"⟩ 99 =
      ([{ sampleUser with
          failed_login_attempts := some 5, is_locked := some true, updated_at := 5 }],
       .error (.locked "Account is locked")) := by
  have h := lockout_after_five_failures defaultSettings sampleUser "x" 1 2 3 4 5
    (by decide) (by decide) (by decide) (by decide) (by decide)
  exact ⟨h.1, h.2 "hunter2xx" 99⟩

/-- **C8** (confirmed): `BaseRepository.update` stamps `updated_at = now`
into the applied `$set` map and returns true exactly when the matched
document actually changed; it returns false for a syntactically invalid
id, for an absent id, and when no stored field changed. -/
theorem baseUpdate_spec (store : List StoredDoc) (document_id : String) (f : BDoc) (now : Nat) :
    (isValidObjectId document_id = false → baseUpdate store document_id f now = (store, false)) ∧
    (findDoc store document_id = none → baseUpdate store document_id f now = (store, false)) ∧
    (∀ d, findDoc store document_id = some d → isValidObjectId document_id = true →
      ((baseUpdate store document_id f now).1 =
        updateFirst (fun x => x.id == document_id)
          (fun x => { x with fields := applySet d.fields (setVal "updated_at" (.n now) f) })
          store) ∧
      ((baseUpdate store document_id f now).2 = true ↔
        applySet d.fields (setVal "updated_at" (.n now) f) ≠ d.fields) ∧
      ((dKeys f).Nodup →
        lookupVal "updated_at" (applySet d.fields (setVal "updated_at" (.n now) f)) =
          some (.n now))) := by
  refine ⟨?_, ?_, ?_⟩
  · intro h
    simp [baseUpdate, h]
  · intro h
    by_cases hv : isValidObjectId document_id <;> simp [baseUpdate, h, hv]
  · intro d hd hv
    refine ⟨?_, ?_, ?_⟩
    · simp [baseUpdate, hv, hd]
    · simp [baseUpdate, hv, hd]
    · intro hnd
      exact lookup_applySet_of_mem d.fields _ "updated_at" (.n now)
        (dKeys_setVal_nodup _ _ _ hnd) (mem_setVal_self _ _ _)

/-- Witness for C8: an invalid id, an absent id, and the `updated_at`
stamp on a real update. -/
theorem baseUpdate_spec_witness :
    baseUpdate ([] : List StoredDoc) "not-an-objectid" [] 7 = ([], false) ∧
    baseUpdate ([] : List StoredDoc) sampleId [] 7 = ([], false) ∧
    lookupVal "updated_at"
      (applySet [("name", BVal.s "a")]
        (setVal "updated_at" (BVal.n 7) [("name", BVal.s "b")])) = some (BVal.n 7) :=
  ⟨(baseUpdate_spec [] "not-an-objectid" [] 7).1 (by decide),
   (baseUpdate_spec [] sampleId [] 7).2.1 rfl,
   ((baseUpdate_spec [{ id := sampleId, fields := [("name", BVal.s "a")] }] sampleId
        [("name", BVal.s "b")] 7).2.2
      { id := sampleId, fields := [("name", BVal.s "a")] } (by decide) (by decide)).2.2
     (by decide)⟩

/-- **C7 counterexample**: once a day's sequence passes 9999, the
4-digit zero padding no longer agrees with the lexicographic sort the
code uses to find the highest number: with sequences 9999 and 10000
present, the lexicographically greatest match is `-9999`, so the next
generated number is `SALE-20250101-10000` — a duplicate — instead of
1 + the highest existing sequence (10001). -/
theorem sale_number_sequence_cex :
    generate_sale_number ["SALE-20250101-9999", "SALE-20250101-10000"] "20250101" =
      some "SALE-20250101-10000" ∧
    "SALE-20250101-10000" ≠ "SALE-20250101-10001" := by decide

/-- **C7 amended** (corrected): sale numbers are sequential per calendar
day as long as every sequence for the day is at most 9999: the first sale
of a day gets `SALE-YYYYMMDD-0001`, and when the day's matching numbers
all carry 4-digit-padded sequences bounded by an existing maximum
`m ≤ 9999`, the next sale gets sequence `m + 1`. Beyond 9999 the
lexicographic maximum diverges from the numeric one. -/
theorem sale_numbering_spec (sales : List String) (day : String) (m : Nat) :
    ((∀ sn ∈ sales, strStartsWith sn ("SALE-" ++ day) = false) →
      generate_sale_number sales day = some ("SALE-" ++ day ++ "-" ++ "0001")) ∧
    (("SALE-" ++ day ++ "-" ++ format04 m) ∈ sales →
      (∀ sn ∈ sales, strStartsWith sn ("SALE-" ++ day) = true →
        ∃ k, k ≤ m ∧ sn = "SALE-" ++ day ++ "-" ++ format04 k) →
      m ≤ 9999 →
      generate_sale_number sales day =
        some ("SALE-" ++ day ++ "-" ++ format04 (m + 1))) := by
  constructor
  · intro hnone
    have hfilter : sales.filter (fun sn => strStartsWith sn ("SALE-" ++ day)) = [] := by
      rw [List.filter_eq_nil_iff]
      intro sn hsn
      simp [hnone sn hsn]
    simp only [generate_sale_number, hfilter]
    have h1 : format04 1 = "0001" := by decide
    rw [show maxString? ([] : List String) = none from rfl, h1]
  · intro hmem hall hb
    have hmlt : m < 10000 := by omega
    have hMstarts : strStartsWith ("SALE-" ++ day ++ "-" ++ format04 m) ("SALE-" ++ day) = true := by
      rw [show "SALE-" ++ day ++ "-" ++ format04 m =
        ("SALE-" ++ day) ++ ("-" ++ format04 m) by rw [String.append_assoc]]
      exact strStartsWith_append _ _
    have hMmem : ("SALE-" ++ day ++ "-" ++ format04 m) ∈
        sales.filter (fun sn => strStartsWith sn ("SALE-" ++ day)) :=
      List.mem_filter.mpr ⟨hmem, hMstarts⟩
    have hub : ∀ x ∈ sales.filter (fun sn => strStartsWith sn ("SALE-" ++ day)),
        sLE x ("SALE-" ++ day ++ "-" ++ format04 m) := by
      intro x hx
      obtain ⟨hxs, hxst⟩ := List.mem_filter.mp hx
      obtain ⟨k, hk, rfl⟩ := hall x hxs hxst
      rcases Nat.eq_or_lt_of_le hk with rfl | hklt
      · exact sLE_refl _
      · refine Or.inr ?_
        have e1 : ("SALE-" ++ day ++ "-" ++ format04 k).data =
            ("SALE-" ++ day ++ "-").data ++ (format04 k).data := by
          simp [String.data_append]
        have e2 : ("SALE-" ++ day ++ "-" ++ format04 m).data =
            ("SALE-" ++ day ++ "-").data ++ (format04 m).data := by
          simp [String.data_append]
        rw [e1, e2]
        exact List.Lex.append_left _ (format04_lex_lt k m hmlt hklt) _
    have hmax : maxString? (sales.filter (fun sn => strStartsWith sn ("SALE-" ++ day))) =
        some ("SALE-" ++ day ++ "-" ++ format04 m) :=
      maxString?_eq_of_ub _ _ hMmem hub
    have hdata : ("SALE-" ++ day ++ "-" ++ format04 m).data =
        ("SALE-" ++ day).data ++ '-' :: (format04 m).data := by
      simp [String.data_append]
    have hparse : parseNat?
        ((splitDash ("SALE-" ++ day ++ "-" ++ format04 m).data).getLastD []) = some m := by
      rw [hdata, splitDash_getLast _ _ (format04_no_dash m hmlt), parseNat?_format04 m hmlt]
    simp only [generate_sale_number, hmax, hparse]

/-- Witness for the amended C7: a day with no sales starts at 0001, and a
day holding sequences 1 and 2 continues with 0003. -/
theorem sale_numbering_spec_witness :
    generate_sale_number ["SALE-20240101-0001"] "20250102" =
      some ("SALE-" ++ "20250102" ++ "-" ++ "0001") ∧
    generate_sale_number ["SALE-20250101-0001", "SALE-20250101-0002"] "20250101" =
      some ("SALE-" ++ "20250101" ++ "-" ++ format04 (2 + 1)) :=
  ⟨(sale_numbering_spec ["SALE-20240101-0001"] "20250102" 2).1 (by decide),
   (sale_numbering_spec ["SALE-20250101-0001", "SALE-20250101-0002"] "20250101" 2).2
     (by decide)
     (by
       intro sn hsn hst
       simp only [List.mem_cons, List.not_mem_nil, or_false] at hsn
       rcases hsn with rfl | rfl
       · exact ⟨1, by omega, by decide⟩
       · exact ⟨2, le_refl 2, by decide⟩)
     (by omega)⟩

/-- **C5 counterexample**: updating a user to a username that already
belongs to a different active identity succeeds (the username re-check is
commented out in `UserService.update`), leaving two active identities
with the same username. -/
theorem username_dup_update_accepted_cex :
    (user_update [sampleUser, sampleUser2] sampleId2
        { email := none, username := some "ana", role := none, permissions := none
          is_active := none } 9).2 = .ok true ∧
    UserRepo.username_exists
      (user_update [sampleUser, sampleUser2] sampleId2
        { email := none, username := some "ana", role := none, permissions := none
          is_active := none } 9).1
      "ana" (some sampleId2) = true := by decide

/-- **C5 amended** (corrected): `UserService.create` rejects an email or a
username that already belongs to an active identity, and
`UserService.update` rejects a new email that belongs to a different
active identity — but `update` performs no username uniqueness check. -/
theorem user_uniqueness_checks (db : List UserDoc) (data : UserCreate) (newId : String)
    (uid : String) (upd : UserUpdate) (e : String) (now : Nat) :
    (UserRepo.email_exists db data.email none = true →
      user_create db data newId now = (db, .error (.badRequest "Email already registered"))) ∧
    (UserRepo.email_exists db data.email none = false →
      UserRepo.username_exists db data.username none = true →
      user_create db data newId now = (db, .error (.badRequest "Username already taken"))) ∧
    (∀ u, UserRepo.get_by_id db uid = some u → upd.email = some e →
      UserRepo.email_exists db e (some uid) = true →
      user_update db uid upd now = (db, .error (.badRequest "Email already registered"))) := by
  refine ⟨?_, ?_, ?_⟩
  · intro h
    simp [user_create, h]
  · intro h1 h2
    simp [user_create, h1, h2]
  · intro u hu he hex
    simp [user_update, hu, he, hex]

/-- Witness for the amended C5: duplicate email on create, duplicate
username on create, duplicate email on update. -/
theorem user_uniqueness_checks_witness :
    user_create [sampleUser]
      { email := "ana@example.com", username := "newname", password := "longpass99"
        role := "user", permissions := ["read"] } sampleId2 3 =
      ([sampleUser], .error (.badRequest "Email already registered")) ∧
    user_create [sampleUser]
      { email := "fresh@example.com", username := "ana", password := "longpass99"
        role := "user", permissions := ["read"] } sampleId2 3 =
      ([sampleUser], .error (.badRequest "Username already taken")) ∧
    user_update [sampleUser, sampleUser2] sampleId2
      { email := some "ana@example.com", username := none, role := none
        permissions := none, is_active := none } 3 =
      ([sampleUser, sampleUser2], .error (.badRequest "Email already registered")) :=
  ⟨(user_uniqueness_checks [sampleUser]
      { email := "ana@example.com", username := "newname", password := "longpass99"
        role := "user", permissions := ["read"] } sampleId2 sampleId2
      { email := some "ana@example.com", username := none, role := none
        permissions := none, is_active := none } "ana@example.com" 3).1 (by decide),
   (user_uniqueness_checks [sampleUser]
      { email := "fresh@example.com", username := "ana", password := "longpass99"
        role := "user", permissions := ["read"] } sampleId2 sampleId2
      { email := some "ana@example.com", username := none, role := none
        permissions := none, is_active := none } "ana@example.com" 3).2.1
     (by decide) (by decide),
   (user_uniqueness_checks [sampleUser, sampleUser2]
      { email := "ana@example.com", username := "newname", password := "longpass99"
        role := "user", permissions := ["read"] } sampleId2 sampleId2
      { email := some "ana@example.com", username := none, role := none
        permissions := none, is_active := none } "ana@example.com" 3).2.2
     sampleUser2 (by decide) rfl (by decide)⟩

end ApiSpec
